import Mathlib

/-!
Verification development for the `rascil_tweaks` template-image module
(`src/rascil_tweaks/functions.py`).

The development shallowly embeds the two core operations of the module:

* `polarisation_frame_from_names` (lines 42-58): resolving a polarisation
  name or list of names against the fixed polarisation-frame registry;
* `create_image_from_visibility` (lines 93-241): deriving an empty template
  image (shape, world coordinate system, polarisation frame) from a
  visibility dataset and an options bag.

Machine floats are modelled as rationals (`ℚ`), Python `None`-defaulted
keyword arguments as `Option` fields, and raised exceptions as an explicit
error type.  Debug logging is modelled as an explicit event trace so that
claims about logging-only parameters are statable.
-/

/-- An astropy `SkyCoord` reduced to the two fields the module reads:
right ascension and declination in degrees. -/
structure SkyCoord where
  ra_deg : ℚ
  dec_deg : ℚ
  deriving DecidableEq, Repr

/-- Modelled from the spec: a RASCIL `PolarisationFrame` object, external to
this repository, reduced to the two fields the module reads: its registry
key (`type`) and its ordered component-name list (`names`). -/
structure PolarisationFrame where
  type : String
  names : List String
  deriving DecidableEq, Repr

/-- Modelled from the spec: the fixed frame-name to component-names registry
`PolarisationFrame.polarisation_frames` of the external RASCIL polarisation
module (an immutable mapping; iteration follows key order). -/
def polarisation_frames : List PolarisationFrame :=
  [⟨"circular", ["RR", "LL", "RL", "LR"]⟩,
   ⟨"circularnp", ["RR", "LL"]⟩,
   ⟨"linear", ["XX", "YY", "XY", "YX"]⟩,
   ⟨"linearnp", ["XX", "YY"]⟩,
   ⟨"stokesIQUV", ["I", "Q", "U", "V"]⟩,
   ⟨"stokesIV", ["I", "V"]⟩,
   ⟨"stokesIQ", ["I", "Q"]⟩,
   ⟨"stokesI", ["I"]⟩]

/-- A RASCIL `BlockVisibility` reduced to the fields
`create_image_from_visibility` reads: phase centre, per-sample frequencies
(Hz), per-sample channel bandwidths (Hz), per-sample `(u, v, w)` spatial
frequencies (wavelengths), and the native polarisation tag string. -/
structure Visibility where
  phasecentre : SkyCoord
  frequency : List ℚ
  channel_bandwidth : List ℚ
  uvw_lambda : List (ℚ × ℚ × ℚ)
  polarisation_frame : String
  deriving DecidableEq, Repr

/-- The keyword-argument bag of `create_image_from_visibility`; a `none`
field means the keyword was not supplied, so `get_parameter` falls back to
the documented default. -/
structure ImageOptions where
  imagecentre : Option SkyCoord := none
  phasecentre : Option SkyCoord := none
  frequency : Option (List ℚ) := none
  nchan : Option ℕ := none
  channel_bandwidth : Option ℚ := none
  npixel : Option ℕ := none
  cellsize : Option ℚ := none
  override_cellsize : Option Bool := none
  polarisation_frame : Option PolarisationFrame := none
  frame : Option String := none
  equinox : Option ℚ := none
  chunksize : Option ℕ := none
  deriving DecidableEq, Repr

/-- The four spectral binning modes distinguished by the `if/elif` chain at
lines 136-168 of the source. -/
inductive SpectralMode where
  | multiChannelNative
  | singleChannelMFS
  | multiChannelMFS
  | singleChannelNative
  deriving DecidableEq, Repr

/-- The exceptions `create_image_from_visibility` can raise:
`indexError` for indexing into an empty array (`frequency[0]`,
`...flat[0]`, `numpy.max` of an empty selection), `invalidBandwidth` for
the failed `assert numpy.abs(channel_bandwidth) > 0.0`,
`unsupportedSpectralMode` for the `ValueError` of line 170 (whose message
formats both channel counts), and `unsupportedPolarisation` for the
`ValueError` of the RASCIL `PolarisationFrame` constructor on an unknown
tag. -/
inductive BuildError where
  | indexError
  | invalidBandwidth
  | unsupportedSpectralMode (inchan vnchan : ℕ)
  | unsupportedPolarisation
  deriving DecidableEq, Repr

/-- The `log.debug` calls of `create_image_from_visibility`, as an event
trace carrying the values interpolated into each message. -/
inductive LogEvent where
  | parseParams
  | defineImage (mode : SpectralMode) (inchan : ℕ) (imagecentre : SkyCoord)
      (reffrequency : ℚ) (channel_bandwidth : ℚ)
  | uvmaxIs (uvmax : ℚ)
  | criticalCellsizeIs (c : ℚ)
  | cellsizeIs (c : ℚ)
  | resetCellsize (old c : ℚ)
  | imageShapeIs (shape : List ℕ)
  deriving DecidableEq, Repr

/-- The 4-axis world coordinate system assembled at lines 210-232. -/
structure WCS4 where
  cdelt : ℚ × ℚ × ℚ × ℚ
  crpix : ℚ × ℚ × ℚ × ℚ
  ctype : List String
  crval : ℚ × ℚ × ℚ × ℚ
  radesys : String
  equinox : ℚ
  deriving DecidableEq, Repr

/-- The argument bundle handed to the external `create_image_from_array`
constructor at lines 235-240: the shape of the zero-filled pixel array, the
world coordinate system, the polarisation frame and the chunking hint.  The
pixel contents are `numpy.zeros(shape)` and hence determined by `shape`. -/
structure Image where
  shape : List ℕ
  wcs : WCS4
  polarisation_frame : PolarisationFrame
  chunksize : Option ℕ
  deriving DecidableEq, Repr

deriving instance DecidableEq for Except

/-- The observable outcome of one call: the debug-log trace emitted before
returning or raising, and the returned image or raised exception. -/
structure BuildOutput where
  log : List LogEvent
  result : Except BuildError Image
  deriving DecidableEq, Repr

/-- Python `sorted` on a list of strings (lexicographic order). -/
def pysorted (l : List String) : List String :=
  l.insertionSort (· ≤ ·)

/-- Lines 42-58: resolve a polarisation description.  The input is a string,
a list of strings, or a value of any other type; the latter falls straight
through to the `ValueError`, modelled as `none`. -/
inductive PolInput where
  | str (s : String)
  | list (l : List String)
  | other
  deriving DecidableEq, Repr

/-- Lines 48-58: a string is looked up directly among the registry keys; a
list is compared, after sorting, against the sorted component names of each
registry frame in order, returning the first match; everything else raises
`ValueError` (`none`). -/
def polarisation_frame_from_names (names : PolInput) : Option PolarisationFrame :=
  match names with
  | .str s => polarisation_frames.find? (fun f => f.type == s)
  | .list l => polarisation_frames.find? (fun f => pysorted l == pysorted f.names)
  | .other => none

/-- Modelled from the spec: the external RASCIL `PolarisationFrame(name)`
constructor used at line 201, which looks the name up in the registry and
raises `ValueError` (`none`) when it is absent. -/
def lookupFrame (s : String) : Option PolarisationFrame :=
  polarisation_frames.find? (fun f => f.type == s)

/-- Lines 136-173 reduced to the mode decision and bandwidth validation:
the four `if/elif` branches in source order, each collapse branch guarded by
`assert numpy.abs(channel_bandwidth) > 0.0`, and the final `else` raising a
`ValueError` that reports both channel counts. -/
def resolveSpectralMode (inchan vnchan : ℕ) (channel_bandwidth : ℚ) :
    Except BuildError SpectralMode :=
  if inchan = vnchan ∧ 1 < vnchan then
    .ok .multiChannelNative
  else if inchan = 1 ∧ 1 < vnchan then
    if 0 < |channel_bandwidth| then .ok .singleChannelMFS
    else .error .invalidBandwidth
  else if 1 < inchan ∧ 1 < vnchan then
    if 0 < |channel_bandwidth| then .ok .multiChannelMFS
    else .error .invalidBandwidth
  else if inchan = 1 ∧ vnchan = 1 then
    if 0 < |channel_bandwidth| then .ok .singleChannelNative
    else .error .invalidBandwidth
  else
    .error (.unsupportedSpectralMode inchan vnchan)

/-- Line 122: `numpy.unique(vis["frequency"].data)` — the distinct observed
frequency values (only their count is used). -/
def ufrequencyOf (vis : Visibility) : List ℚ :=
  vis.frequency.dedup

/-- Line 125: `vnchan = len(ufrequency)`. -/
def vnchanOf (vis : Visibility) : ℕ :=
  (ufrequencyOf vis).length

/-- Line 123: the `frequency` keyword, defaulting to the dataset's own
frequency array. -/
def frequencyOf (vis : Visibility) (opts : ImageOptions) : List ℚ :=
  opts.frequency.getD vis.frequency

/-- Line 127: the `nchan` keyword, defaulting to the observed unique channel
count. -/
def inchanOf (vis : Visibility) (opts : ImageOptions) : ℕ :=
  opts.nchan.getD (vnchanOf vis)

/-- Line 176: the `npixel` keyword, defaulting to 512. -/
def npixelOf (opts : ImageOptions) : ℕ :=
  opts.npixel.getD 512

/-- Line 177: the absolute values of all u and v components of
`vis["uvw_lambda"]` (the `[..., 0:2]` slice; w is excluded). -/
def uvAbsList (vis : Visibility) : List ℚ :=
  vis.uvw_lambda.map (fun t => |t.1|) ++ vis.uvw_lambda.map (fun t => |t.2.1|)

/-- Line 177: `uvmax = numpy.max(numpy.abs(vis["uvw_lambda"].data[..., 0:2]))`;
`numpy.max` of an empty selection raises, modelled as `none`. -/
def uvmaxOf (vis : Visibility) : Option ℚ :=
  match uvAbsList vis with
  | [] => none
  | x :: xs => some (xs.foldl max x)

/-- Line 179: `criticalcellsize = 1.0 / (uvmax * 2.0)`. -/
def criticalcellsizeOf (uvmax : ℚ) : ℚ :=
  1 / (uvmax * 2)

/-- Line 184: the `cellsize` keyword, defaulting to half the critical
cellsize. -/
def requestedCellsize (uvmax : ℚ) (req : Option ℚ) : ℚ :=
  req.getD (1 / 2 * criticalcellsizeOf uvmax)

/-- Line 190: the reset condition
`(override_cellsize and cellsize > criticalcellsize) or (cellsize == 0.0)`. -/
def clampCellsize (uvmax : ℚ) (req : Option ℚ) (override_cellsize : Bool) : Bool :=
  (override_cellsize && decide (criticalcellsizeOf uvmax < requestedCellsize uvmax req))
    || decide (requestedCellsize uvmax req = 0)

/-- Lines 184-197: the finally resolved cellsize: the requested (or default)
value, reset to the critical cellsize when the reset condition fires. -/
def resolveCellsize (uvmax : ℚ) (req : Option ℚ) (override_cellsize : Bool) : ℚ :=
  if clampCellsize uvmax req override_cellsize then criticalcellsizeOf uvmax
  else requestedCellsize uvmax req

/-- The IEEE-754 double value of `numpy.pi`, as an exact rational. -/
def numpyPi : ℚ :=
  884279719003555 / 281474976710656

/-- Lines 210-232: assemble the 4-axis world coordinate system.  The
longitude step is negated by the RA convention; the reference pixel on the
spatial axes is `npixel // 2 + 1` (floor division, 1-based). -/
def mkWCS (cellsize : ℚ) (npixel : ℕ) (phasecentre : SkyCoord)
    (reffrequency channel_bandwidth : ℚ) (radesys : String) (equinox : ℚ) : WCS4 :=
  { cdelt := (-(cellsize * 180 / numpyPi), cellsize * 180 / numpyPi, 1, channel_bandwidth)
    crpix := (((npixel / 2 + 1 : ℕ) : ℚ), ((npixel / 2 + 1 : ℕ) : ℚ), 1, 1)
    ctype := ["RA---SIN", "DEC--SIN", "STOKES", "FREQ"]
    crval := (phasecentre.ra_deg, phasecentre.dec_deg, 1, reffrequency)
    radesys := radesys
    equinox := equinox }

/-- Lines 93-241: `create_image_from_visibility`.  The traversal order, the
eager evaluation of `get_parameter` defaults (the bandwidth default indexes
`vis["channel_bandwidth"].data.flat[0]` and the polarisation default
constructs `PolarisationFrame(vis._polarisation_frame)` even when the
keyword is supplied), the branch structure and the log points follow the
source. -/
def create_image_from_visibility (vis : Visibility) (opts : ImageOptions) : BuildOutput :=
  let log0 : List LogEvent := [.parseParams]
  let imagecentre := opts.imagecentre.getD vis.phasecentre
  let phasecentre := opts.phasecentre.getD vis.phasecentre
  let frequency := frequencyOf vis opts
  let vnchan := vnchanOf vis
  let inchan := inchanOf vis opts
  match frequency.head? with
  | none => ⟨log0, .error .indexError⟩
  | some reffrequency =>
    match vis.channel_bandwidth.head? with
    | none => ⟨log0, .error .indexError⟩
    | some bwdefault =>
      let channel_bandwidth := opts.channel_bandwidth.getD bwdefault
      match resolveSpectralMode inchan vnchan channel_bandwidth with
      | .error e => ⟨log0, .error e⟩
      | .ok mode =>
        let log1 := log0 ++
          [.defineImage mode inchan imagecentre reffrequency channel_bandwidth]
        let npixel := npixelOf opts
        match uvmaxOf vis with
        | none => ⟨log1, .error .indexError⟩
        | some uvmax =>
          let override_cellsize := opts.override_cellsize.getD true
          let cellsize := resolveCellsize uvmax opts.cellsize override_cellsize
          let log2 := log1 ++
            [.uvmaxIs uvmax, .criticalCellsizeIs (criticalcellsizeOf uvmax),
             .cellsizeIs (requestedCellsize uvmax opts.cellsize)]
          let log3 :=
            if clampCellsize uvmax opts.cellsize override_cellsize then
              log2 ++ [.resetCellsize (requestedCellsize uvmax opts.cellsize)
                (criticalcellsizeOf uvmax)]
            else log2
          match lookupFrame vis.polarisation_frame with
          | none => ⟨log3, .error .unsupportedPolarisation⟩
          | some nativeFrame =>
            let pol_frame := opts.polarisation_frame.getD nativeFrame
            let inpol := pol_frame.names.length
            let shape := [inchan, inpol, npixel, npixel]
            let log4 := log3 ++ [.imageShapeIs shape]
            let w := mkWCS cellsize npixel phasecentre reffrequency channel_bandwidth
              (opts.frame.getD "ICRS") (opts.equinox.getD 2000)
            ⟨log4, .ok { shape := shape, wcs := w, polarisation_frame := pol_frame,
                         chunksize := opts.chunksize }⟩

/-! ## Helper lemmas -/

/-- Sorting two string lists gives equal results exactly when the lists are
permutations of each other. -/
theorem pysorted_eq_iff_perm (a b : List String) : pysorted a = pysorted b ↔ a.Perm b := by
  have ha : (pysorted a).Perm a := List.perm_insertionSort (· ≤ ·) a
  have hb : (pysorted b).Perm b := List.perm_insertionSort (· ≤ ·) b
  constructor
  · intro h
    rw [← h] at hb
    exact ha.symm.trans hb
  · intro h
    exact List.eq_of_perm_of_sorted (ha.trans (h.trans hb.symm))
      (List.sorted_insertionSort (· ≤ ·) a) (List.sorted_insertionSort (· ≤ ·) b)

/-- The starting value of a fold by `max` bounds the fold from below. -/
theorem le_foldl_max (xs : List ℚ) (x : ℚ) : x ≤ xs.foldl max x := by
  induction xs generalizing x with
  | nil => exact le_refl x
  | cons y ys ih => exact le_trans (le_max_left x y) (ih (max x y))

/-- Every entry of the u,v magnitude list is nonnegative. -/
theorem uvAbsList_nonneg (vis : Visibility) : ∀ y ∈ uvAbsList vis, 0 ≤ y := by
  intro y hy
  unfold uvAbsList at hy
  rcases List.mem_append.mp hy with h | h <;>
    · obtain ⟨t, _, rfl⟩ := List.mem_map.mp h
      exact abs_nonneg _

/-- When every stage succeeds, `create_image_from_visibility` returns the
image assembled from the resolved parameters. -/
theorem create_image_ok (vis : Visibility) (opts : ImageOptions) (f0 b0 : ℚ)
    (mode : SpectralMode) (u : ℚ) (nf : PolarisationFrame)
    (h1 : (frequencyOf vis opts).head? = some f0)
    (h2 : vis.channel_bandwidth.head? = some b0)
    (h3 : resolveSpectralMode (inchanOf vis opts) (vnchanOf vis)
      (opts.channel_bandwidth.getD b0) = .ok mode)
    (h4 : uvmaxOf vis = some u)
    (h5 : lookupFrame vis.polarisation_frame = some nf) :
    (create_image_from_visibility vis opts).result = .ok
      { shape := [inchanOf vis opts, (opts.polarisation_frame.getD nf).names.length,
                  npixelOf opts, npixelOf opts]
        wcs := mkWCS (resolveCellsize u opts.cellsize (opts.override_cellsize.getD true))
          (npixelOf opts) (opts.phasecentre.getD vis.phasecentre) f0
          (opts.channel_bandwidth.getD b0) (opts.frame.getD "ICRS") (opts.equinox.getD 2000)
        polarisation_frame := opts.polarisation_frame.getD nf
        chunksize := opts.chunksize } := by
  unfold create_image_from_visibility
  simp only [h1, h2, h3, h4, h5]

/-- When the spectral stage raises, the call propagates that exception. -/
theorem create_image_spectral_error (vis : Visibility) (opts : ImageOptions) (f0 b0 : ℚ)
    (e : BuildError)
    (h1 : (frequencyOf vis opts).head? = some f0)
    (h2 : vis.channel_bandwidth.head? = some b0)
    (h3 : resolveSpectralMode (inchanOf vis opts) (vnchanOf vis)
      (opts.channel_bandwidth.getD b0) = .error e) :
    (create_image_from_visibility vis opts).result = .error e := by
  unfold create_image_from_visibility
  simp only [h1, h2, h3]

/-- When the native polarisation tag is not in the registry, the call raises
the polarisation error. -/
theorem create_image_pol_error (vis : Visibility) (opts : ImageOptions) (f0 b0 : ℚ)
    (mode : SpectralMode) (u : ℚ)
    (h1 : (frequencyOf vis opts).head? = some f0)
    (h2 : vis.channel_bandwidth.head? = some b0)
    (h3 : resolveSpectralMode (inchanOf vis opts) (vnchanOf vis)
      (opts.channel_bandwidth.getD b0) = .ok mode)
    (h4 : uvmaxOf vis = some u)
    (h5 : lookupFrame vis.polarisation_frame = none) :
    (create_image_from_visibility vis opts).result = .error .unsupportedPolarisation := by
  unfold create_image_from_visibility
  simp only [h1, h2, h3, h4, h5]

/-! ## Claim theorems -/

/-- C2: over channel counts (which are at least 1: the observed count is the
length of a nonempty unique-frequency array and the requested count defaults
to it), spectral mode resolution succeeds — returning one of the four modes
— exactly on the pairs covered by rules 1-4 (with nonzero bandwidth where a
collapse rule requires it, rule 1 imposing no bandwidth constraint), and
fails with `UnsupportedSpectralModeError` reporting both counts exactly on
the uncovered combination `requested_nchan > 1` with
`observed_unique_nchan == 1`. -/
theorem spectral_mode_resolution_total (inchan vnchan : ℕ) (bw : ℚ)
    (hi : 1 ≤ inchan) (hv : 1 ≤ vnchan) :
    ((∃ m, resolveSpectralMode inchan vnchan bw = .ok m) ↔
      ¬(1 < inchan ∧ vnchan = 1) ∧ ((inchan = vnchan ∧ 1 < vnchan) ∨ bw ≠ 0))
    ∧ (resolveSpectralMode inchan vnchan bw
        = .error (.unsupportedSpectralMode inchan vnchan) ↔ 1 < inchan ∧ vnchan = 1) := by
  unfold resolveSpectralMode
  by_cases hbw : bw = 0 <;>
    split_ifs with h1 h2 h3 h4 <;>
      simp_all [abs_pos] <;> omega

/-- C2 witness: at requested count 2, observed count 1, bandwidth 1 the
characterisation holds and the call fails with the error reporting both
counts. -/
theorem spectral_mode_resolution_total_witness :
    (1 ≤ 2 ∧ 1 ≤ 1)
    ∧ (((∃ m, resolveSpectralMode 2 1 1 = .ok m) ↔
          ¬(1 < 2 ∧ 1 = 1) ∧ ((2 = 1 ∧ 1 < 1) ∨ (1 : ℚ) ≠ 0))
        ∧ (resolveSpectralMode 2 1 1
            = .error (.unsupportedSpectralMode 2 1) ↔ 1 < 2 ∧ 1 = 1)) :=
  ⟨by decide, spectral_mode_resolution_total 2 1 1 (by decide) (by decide)⟩

/-- C4: with requested and observed channel counts both 1 and an effective
channel bandwidth of zero, the build fails with `InvalidBandwidthError`
instead of returning a template. -/
theorem native_collapse_zero_bandwidth_fails (vis : Visibility) (opts : ImageOptions)
    (f0 b0 : ℚ)
    (h1 : (frequencyOf vis opts).head? = some f0)
    (h2 : vis.channel_bandwidth.head? = some b0)
    (hi : inchanOf vis opts = 1) (hv : vnchanOf vis = 1)
    (hbw : opts.channel_bandwidth.getD b0 = 0) :
    (create_image_from_visibility vis opts).result = .error .invalidBandwidth := by
  apply create_image_spectral_error vis opts f0 b0 .invalidBandwidth h1 h2
  rw [hi, hv, hbw]
  decide

/-- C4 witness: a one-channel dataset with zero recorded bandwidth and no
overrides fails with the bandwidth error. -/
theorem native_collapse_zero_bandwidth_fails_witness :
    ((frequencyOf ⟨⟨0, 0⟩, [100], [0], [(9, 9, 9)], "stokesI"⟩ {}).head? = some 100
      ∧ (⟨⟨0, 0⟩, [100], [0], [(9, 9, 9)], "stokesI"⟩ : Visibility).channel_bandwidth.head?
          = some 0
      ∧ inchanOf ⟨⟨0, 0⟩, [100], [0], [(9, 9, 9)], "stokesI"⟩ {} = 1
      ∧ vnchanOf ⟨⟨0, 0⟩, [100], [0], [(9, 9, 9)], "stokesI"⟩ = 1
      ∧ (ImageOptions.channel_bandwidth {}).getD 0 = 0)
    ∧ (create_image_from_visibility ⟨⟨0, 0⟩, [100], [0], [(9, 9, 9)], "stokesI"⟩ {}).result
        = .error .invalidBandwidth :=
  ⟨by decide, native_collapse_zero_bandwidth_fails _ {} 100 0 (by decide) (by decide)
    (by decide) (by decide) (by decide)⟩

/-- C10: for a positive maximum spatial frequency, a requested cellsize of
exactly zero is replaced by the critical cellsize whatever the value of the
clamp flag. -/
theorem zero_cellsize_reset_ignores_clamp_flag (uvmax : ℚ) (override_cellsize : Bool)
    (_h : 0 < uvmax) :
    resolveCellsize uvmax (some 0) override_cellsize = criticalcellsizeOf uvmax := by
  unfold resolveCellsize clampCellsize requestedCellsize
  simp

/-- C10 witness: at `uvmax = 1` with the clamp flag disabled, a requested
cellsize of zero still resolves to the critical cellsize. -/
theorem zero_cellsize_reset_ignores_clamp_flag_witness :
    (0 : ℚ) < 1 ∧ resolveCellsize 1 (some 0) false = criticalcellsizeOf 1 :=
  ⟨by decide, zero_cellsize_reset_ignores_clamp_flag 1 false (by decide)⟩

unseal Rat.mul Rat.inv Rat.add in
/-- C6 counterexample: with a positive maximum spatial frequency and the
clamp enabled, a requested cellsize of `-1` is returned unchanged, so the
resolved cellsize is not always positive. -/
theorem negative_requested_cellsize_returned :
    resolveCellsize 1 (some (-1)) true = -1
      ∧ ¬(0 < resolveCellsize 1 (some (-1)) true) := by
  decide

/-- C6 amended: for a positive maximum spatial frequency the resolved
cellsize equals exactly `0.5 * critical` when no size is requested, never
exceeds the critical size when clamping is enabled, and is positive
whenever the requested size is nonnegative (zero being replaced by the
critical size); a negative requested size, however, is returned
unchanged. -/
theorem cellsize_resolution_postconditions_amended (uvmax : ℚ) (req : Option ℚ)
    (override_cellsize : Bool) (h : 0 < uvmax) :
    (req = none →
      resolveCellsize uvmax req override_cellsize = 1 / 2 * criticalcellsizeOf uvmax)
    ∧ (override_cellsize = true →
      resolveCellsize uvmax req override_cellsize ≤ criticalcellsizeOf uvmax)
    ∧ ((∀ r, req = some r → 0 ≤ r) → 0 < resolveCellsize uvmax req override_cellsize) := by
  have hc : 0 < criticalcellsizeOf uvmax := by
    unfold criticalcellsizeOf
    positivity
  refine ⟨?_, ?_, ?_⟩
  · rintro rfl
    have h1 : ¬(criticalcellsizeOf uvmax < requestedCellsize uvmax none) := by
      unfold requestedCellsize
      simp only [Option.getD_none]
      intro hlt
      linarith
    have h2 : requestedCellsize uvmax none ≠ 0 := by
      unfold requestedCellsize
      simp only [Option.getD_none]
      positivity
    unfold resolveCellsize clampCellsize
    rw [if_neg (by simp [h1, h2])]
    unfold requestedCellsize
    norm_num
  · intro hov
    by_cases hcl : clampCellsize uvmax req override_cellsize = true
    · simp [resolveCellsize, hcl]
    · have hle : requestedCellsize uvmax req ≤ criticalcellsizeOf uvmax := by
        unfold clampCellsize at hcl
        rw [hov] at hcl
        simp only [Bool.true_and, Bool.or_eq_true, decide_eq_true_eq, not_or] at hcl
        exact le_of_not_lt hcl.1
      simp [resolveCellsize, hcl, hle]
  · intro hreq
    by_cases hcl : clampCellsize uvmax req override_cellsize = true
    · simpa [resolveCellsize, hcl] using hc
    · have hne : requestedCellsize uvmax req ≠ 0 := by
        unfold clampCellsize at hcl
        simp only [Bool.or_eq_true, Bool.and_eq_true, decide_eq_true_eq, not_or, not_and] at hcl
        exact hcl.2
      have hres : resolveCellsize uvmax req override_cellsize = requestedCellsize uvmax req := by
        simp [resolveCellsize, hcl]
      rw [hres]
      rcases req with _ | r
      · unfold requestedCellsize
        simp only [Option.getD_none]
        positivity
      · have hval : requestedCellsize uvmax (some r) = r := rfl
        rw [hval] at hne ⊢
        exact lt_of_le_of_ne (hreq r rfl) (Ne.symm hne)

/-- C6 witness: at `uvmax = 1`, no requested size, clamp enabled, all three
amended postconditions hold. -/
theorem cellsize_resolution_postconditions_amended_witness :
    (0 : ℚ) < 1
    ∧ (((none : Option ℚ) = none →
          resolveCellsize 1 none true = 1 / 2 * criticalcellsizeOf 1)
      ∧ (true = true → resolveCellsize 1 none true ≤ criticalcellsizeOf 1)
      ∧ ((∀ r, (none : Option ℚ) = some r → 0 ≤ r) → 0 < resolveCellsize 1 none true)) :=
  ⟨by decide, cellsize_resolution_postconditions_amended 1 none true (by decide)⟩

/-- A concrete well-formed dataset used by several witnesses: three distinct
frequencies, unit bandwidths, maximum u,v magnitude 1000, Stokes-I data. -/
def visW : Visibility :=
  ⟨⟨15, -45⟩, [100, 101, 102], [1, 1, 1], [(1000, -500, 3), (-200, 250, 7)], "stokesI"⟩

/-- A dataset whose only sample sits at the origin of the u,v plane, so the
maximum sampled spatial frequency is zero. -/
def visZeroUV : Visibility :=
  ⟨⟨0, 0⟩, [100], [1], [(0, 0, 0)], "stokesI"⟩

/-- The template the build returns for `visZeroUV` with default options. -/
def imZeroUV : Image :=
  { shape := [1, 1, 512, 512]
    wcs := mkWCS 0 512 ⟨0, 0⟩ 100 1 "ICRS" 2000
    polarisation_frame := ⟨"stokesI", ["I"]⟩
    chunksize := none }

unseal Rat.mul Rat.inv Rat.add in
/-- C5 counterexample: on a dataset with `max_uv_lambda = 0` the build does
not fail at all — no `DegenerateBaselineError` is raised; the division by
zero goes through and a template is returned. -/
theorem degenerate_baseline_not_raised :
    uvmaxOf visZeroUV = some 0
      ∧ (create_image_from_visibility visZeroUV {}).result = .ok imZeroUV := by
  decide

/-- C5 amended: the code performs no positivity check on the maximum
spatial frequency.  That maximum is never negative (it is a maximum of
absolute values), and whenever it is positive the critical cellsize is
computed as `1 / (2 * max_uv_lambda)`; at zero the build proceeds without
raising any degenerate-baseline error. -/
theorem uvmax_nonneg_critical_formula (vis : Visibility) (u : ℚ)
    (h : uvmaxOf vis = some u) :
    0 ≤ u ∧ (0 < u → criticalcellsizeOf u = 1 / (2 * u)) := by
  constructor
  · unfold uvmaxOf at h
    cases hL : uvAbsList vis with
    | nil =>
      rw [hL] at h
      simp at h
    | cons x xs =>
      rw [hL] at h
      simp only [Option.some.injEq] at h
      have hx : (0 : ℚ) ≤ x := by
        apply uvAbsList_nonneg vis
        rw [hL]
        exact List.mem_cons_self x xs
      rw [← h]
      exact le_trans hx (le_foldl_max xs x)
  · intro _
    unfold criticalcellsizeOf
    rw [mul_comm]

/-- C5 amended witness: on a concrete dataset the maximum u,v magnitude is
1000, it is nonnegative, and the critical cellsize formula holds. -/
theorem uvmax_nonneg_critical_formula_witness :
    uvmaxOf visW = some 1000
    ∧ ((0 : ℚ) ≤ 1000
      ∧ ((0 : ℚ) < 1000 → criticalcellsizeOf 1000 = 1 / (2 * 1000))) :=
  ⟨by decide, uvmax_nonneg_critical_formula visW 1000 (by decide)⟩

/-- C3: on a dataset with more than one observed unique channel and a
requested channel count equal to the observed count, the build succeeds and
the image channel dimension equals the shared count, for every requested
channel bandwidth value including zero. -/
theorem multichannel_native_build_roundtrip (vis : Visibility) (opts : ImageOptions)
    (f0 b0 u : ℚ) (nf : PolarisationFrame) (bw : Option ℚ)
    (hN : 1 < vnchanOf vis)
    (hreq : inchanOf vis opts = vnchanOf vis)
    (h1 : (frequencyOf vis opts).head? = some f0)
    (h2 : vis.channel_bandwidth.head? = some b0)
    (h4 : uvmaxOf vis = some u)
    (h5 : lookupFrame vis.polarisation_frame = some nf) :
    ∃ im,
      (create_image_from_visibility vis { opts with channel_bandwidth := bw }).result = .ok im
      ∧ im.shape.head? = some (vnchanOf vis) := by
  have hin : inchanOf vis { opts with channel_bandwidth := bw } = inchanOf vis opts := rfl
  have h3 : resolveSpectralMode (inchanOf vis { opts with channel_bandwidth := bw })
      (vnchanOf vis)
      (({ opts with channel_bandwidth := bw } : ImageOptions).channel_bandwidth.getD b0)
      = .ok .multiChannelNative := by
    rw [hin, hreq]
    unfold resolveSpectralMode
    rw [if_pos ⟨rfl, hN⟩]
  refine ⟨_, create_image_ok vis _ f0 b0 .multiChannelNative u nf h1 h2 h3 h4 h5, ?_⟩
  simp only [List.head?_cons, Option.some.injEq]
  rw [hin, hreq]

/-- C3 witness: on the concrete three-channel dataset with requested
channel count 3 and requested bandwidth 0, the build succeeds with channel
dimension 3. -/
theorem multichannel_native_build_roundtrip_witness :
    (1 < vnchanOf visW
      ∧ inchanOf visW { nchan := some 3 } = vnchanOf visW
      ∧ (frequencyOf visW { nchan := some 3 }).head? = some 100
      ∧ visW.channel_bandwidth.head? = some 1
      ∧ uvmaxOf visW = some 1000
      ∧ lookupFrame visW.polarisation_frame = some ⟨"stokesI", ["I"]⟩)
    ∧ ∃ im,
        (create_image_from_visibility visW
          { ({ nchan := some 3 } : ImageOptions) with channel_bandwidth := some 0 }).result
          = .ok im
        ∧ im.shape.head? = some (vnchanOf visW) :=
  ⟨by decide,
    multichannel_native_build_roundtrip visW { nchan := some 3 } 100 1 1000
      ⟨"stokesI", ["I"]⟩ (some 0) (by decide) (by decide) (by decide) (by decide)
      (by decide) (by decide)⟩

/-- C8: when the `nchan` option is not supplied, the channel count defaults
to the observed unique channel count, so a dataset with more than one
unique frequency yields a multi-channel image whose channel dimension is
that observed count. -/
theorem default_nchan_is_observed_count (vis : Visibility) (opts : ImageOptions)
    (f0 b0 u : ℚ) (nf : PolarisationFrame)
    (hnone : opts.nchan = none)
    (hN : 1 < vnchanOf vis)
    (h1 : (frequencyOf vis opts).head? = some f0)
    (h2 : vis.channel_bandwidth.head? = some b0)
    (h4 : uvmaxOf vis = some u)
    (h5 : lookupFrame vis.polarisation_frame = some nf) :
    ∃ im, (create_image_from_visibility vis opts).result = .ok im
      ∧ im.shape.head? = some (vnchanOf vis) := by
  have hin : inchanOf vis opts = vnchanOf vis := by
    unfold inchanOf
    rw [hnone]
    rfl
  have h3 : resolveSpectralMode (inchanOf vis opts) (vnchanOf vis)
      (opts.channel_bandwidth.getD b0) = .ok .multiChannelNative := by
    rw [hin]
    unfold resolveSpectralMode
    rw [if_pos ⟨rfl, hN⟩]
  refine ⟨_, create_image_ok vis opts f0 b0 .multiChannelNative u nf h1 h2 h3 h4 h5, ?_⟩
  simp only [List.head?_cons, Option.some.injEq]
  exact hin

/-- C8 witness: with no `nchan` option, the concrete three-channel dataset
yields a template with channel dimension 3. -/
theorem default_nchan_is_observed_count_witness :
    (({} : ImageOptions).nchan = none
      ∧ 1 < vnchanOf visW
      ∧ (frequencyOf visW {}).head? = some 100
      ∧ visW.channel_bandwidth.head? = some 1
      ∧ uvmaxOf visW = some 1000
      ∧ lookupFrame visW.polarisation_frame = some ⟨"stokesI", ["I"]⟩)
    ∧ ∃ im, (create_image_from_visibility visW {}).result = .ok im
        ∧ im.shape.head? = some (vnchanOf visW) :=
  ⟨by decide,
    default_nchan_is_observed_count visW {} 100 1 1000 ⟨"stokesI", ["I"]⟩ rfl
      (by decide) (by decide) (by decide) (by decide) (by decide)⟩

/-- C7: whenever the build returns a template, its world coordinate system
has pixel steps `(-cellsize deg, +cellsize deg, 1, channel_bandwidth)`,
reference pixel `(npixel // 2 + 1, npixel // 2 + 1, 1, 1)` (1-based), and
reference values `(RA deg, Dec deg, 1, reference_frequency)`. -/
theorem wcs_axis_values (vis : Visibility) (opts : ImageOptions) (im : Image)
    (u f0 b0 : ℚ)
    (hok : (create_image_from_visibility vis opts).result = .ok im)
    (h1 : (frequencyOf vis opts).head? = some f0)
    (h2 : vis.channel_bandwidth.head? = some b0)
    (h4 : uvmaxOf vis = some u) :
    im.wcs.cdelt =
      (-(resolveCellsize u opts.cellsize (opts.override_cellsize.getD true) * 180 / numpyPi),
        resolveCellsize u opts.cellsize (opts.override_cellsize.getD true) * 180 / numpyPi,
        1, opts.channel_bandwidth.getD b0)
    ∧ im.wcs.crpix =
        (((npixelOf opts / 2 + 1 : ℕ) : ℚ), ((npixelOf opts / 2 + 1 : ℕ) : ℚ), 1, 1)
    ∧ im.wcs.crval =
        ((opts.phasecentre.getD vis.phasecentre).ra_deg,
          (opts.phasecentre.getD vis.phasecentre).dec_deg, 1, f0) := by
  cases hsp : resolveSpectralMode (inchanOf vis opts) (vnchanOf vis)
      (opts.channel_bandwidth.getD b0) with
  | error e =>
    rw [create_image_spectral_error vis opts f0 b0 e h1 h2 hsp] at hok
    exact absurd hok (by simp)
  | ok mode =>
    cases hpf : lookupFrame vis.polarisation_frame with
    | none =>
      rw [create_image_pol_error vis opts f0 b0 mode u h1 h2 hsp h4 hpf] at hok
      exact absurd hok (by simp)
    | some nf =>
      rw [create_image_ok vis opts f0 b0 mode u nf h1 h2 hsp h4 hpf] at hok
      injection hok with him
      subst him
      exact ⟨rfl, rfl, rfl⟩

/-- The options bag used by the C7 witness: requested channel count 3 and
requested bandwidth 0. -/
def optsW : ImageOptions :=
  { nchan := some 3, channel_bandwidth := some 0 }

/-- The template returned for `visW` under `optsW`. -/
def imW : Image :=
  { shape := [3, 1, 512, 512]
    wcs := mkWCS (1 / 4000) 512 ⟨15, -45⟩ 100 0 "ICRS" 2000
    polarisation_frame := ⟨"stokesI", ["I"]⟩
    chunksize := none }

unseal Rat.mul Rat.inv Rat.add in
/-- C7 witness: the concrete build returns `imW`, whose world coordinate
system carries exactly the claimed pixel steps, reference pixel and
reference values. -/
theorem wcs_axis_values_witness :
    ((create_image_from_visibility visW optsW).result = .ok imW
      ∧ (frequencyOf visW optsW).head? = some 100
      ∧ visW.channel_bandwidth.head? = some 1
      ∧ uvmaxOf visW = some 1000)
    ∧ (imW.wcs.cdelt =
        (-(resolveCellsize 1000 optsW.cellsize (optsW.override_cellsize.getD true) * 180
            / numpyPi),
          resolveCellsize 1000 optsW.cellsize (optsW.override_cellsize.getD true) * 180
            / numpyPi,
          1, optsW.channel_bandwidth.getD 1)
      ∧ imW.wcs.crpix =
          (((npixelOf optsW / 2 + 1 : ℕ) : ℚ), ((npixelOf optsW / 2 + 1 : ℕ) : ℚ), 1, 1)
      ∧ imW.wcs.crval =
          ((optsW.phasecentre.getD visW.phasecentre).ra_deg,
            (optsW.phasecentre.getD visW.phasecentre).dec_deg, 1, 100)) :=
  ⟨⟨by decide, by decide, by decide, by decide⟩,
    wcs_axis_values visW optsW imW 1000 100 1 (by decide) (by decide) (by decide)
      (by decide)⟩

/-- C9: the `imagecentre` option never affects the returned template or
raised exception — two builds whose options differ only in `imagecentre`
produce equal results (the option is interpolated only into debug-log
messages). -/
theorem imagecentre_noninterference (vis : Visibility) (opts : ImageOptions)
    (ic1 ic2 : Option SkyCoord) :
    (create_image_from_visibility vis { opts with imagecentre := ic1 }).result
      = (create_image_from_visibility vis { opts with imagecentre := ic2 }).result := by
  have hfr : ∀ ic, frequencyOf vis { opts with imagecentre := ic } = frequencyOf vis opts :=
    fun _ => rfl
  have hin : ∀ ic, inchanOf vis { opts with imagecentre := ic } = inchanOf vis opts :=
    fun _ => rfl
  have hnp : ∀ ic, npixelOf { opts with imagecentre := ic } = npixelOf opts :=
    fun _ => rfl
  have hcb : ∀ ic : Option SkyCoord,
      ({ opts with imagecentre := ic } : ImageOptions).channel_bandwidth
        = opts.channel_bandwidth := fun _ => rfl
  have hcs : ∀ ic : Option SkyCoord,
      ({ opts with imagecentre := ic } : ImageOptions).cellsize = opts.cellsize :=
    fun _ => rfl
  have hoc : ∀ ic : Option SkyCoord,
      ({ opts with imagecentre := ic } : ImageOptions).override_cellsize
        = opts.override_cellsize := fun _ => rfl
  have hpl : ∀ ic : Option SkyCoord,
      ({ opts with imagecentre := ic } : ImageOptions).polarisation_frame
        = opts.polarisation_frame := fun _ => rfl
  have hfm : ∀ ic : Option SkyCoord,
      ({ opts with imagecentre := ic } : ImageOptions).frame = opts.frame :=
    fun _ => rfl
  have heq : ∀ ic : Option SkyCoord,
      ({ opts with imagecentre := ic } : ImageOptions).equinox = opts.equinox :=
    fun _ => rfl
  have hch : ∀ ic : Option SkyCoord,
      ({ opts with imagecentre := ic } : ImageOptions).chunksize = opts.chunksize :=
    fun _ => rfl
  have hpc : ∀ ic : Option SkyCoord,
      ({ opts with imagecentre := ic } : ImageOptions).phasecentre = opts.phasecentre :=
    fun _ => rfl
  unfold create_image_from_visibility
  simp only [hfr, hin, hnp, hcb, hcs, hoc, hpl, hfm, heq, hch, hpc]
  cases h1 : (frequencyOf vis opts).head? with
  | none => rfl
  | some f0 =>
    dsimp only
    cases h2 : vis.channel_bandwidth.head? with
    | none => rfl
    | some b0 =>
      dsimp only
      cases h3 : resolveSpectralMode (inchanOf vis opts) (vnchanOf vis)
          (opts.channel_bandwidth.getD b0) with
      | error e => rfl
      | ok mode =>
        dsimp only
        cases h4 : uvmaxOf vis with
        | none => rfl
        | some u =>
          dsimp only
          cases h5 : lookupFrame vis.polarisation_frame with
          | none => rfl
          | some nf => rfl

/-- C1: resolution returns a registry frame exactly when the input is a
string equal to a registry key or a list of names that is a permutation of
some registry frame's component names; any other input — unmatched string,
unmatched list, or a value of another type — raises
`UnsupportedPolarisationError` (modelled as `none`), and any returned frame
belongs to the registry. -/
theorem polarisation_resolution_total_characterisation (input : PolInput) :
    ((polarisation_frame_from_names input).isSome ↔
      (∃ s, input = .str s ∧ ∃ f ∈ polarisation_frames, f.type = s)
      ∨ (∃ l, input = .list l ∧ ∃ f ∈ polarisation_frames, l.Perm f.names))
    ∧ ∀ f, polarisation_frame_from_names input = some f → f ∈ polarisation_frames := by
  constructor
  · cases input with
    | str s =>
      simp [polarisation_frame_from_names, List.find?_isSome, beq_iff_eq]
    | list l =>
      simp [polarisation_frame_from_names, List.find?_isSome, beq_iff_eq,
        pysorted_eq_iff_perm]
    | other =>
      simp [polarisation_frame_from_names]
  · intro f hf
    cases input with
    | str s =>
      simp only [polarisation_frame_from_names] at hf
      exact List.mem_of_find?_eq_some hf
    | list l =>
      simp only [polarisation_frame_from_names] at hf
      exact List.mem_of_find?_eq_some hf
    | other =>
      simp [polarisation_frame_from_names] at hf

/-- C1 witness: the characterisation instantiated at a permuted Stokes
component list. -/
theorem polarisation_resolution_total_characterisation_witness :
    ((polarisation_frame_from_names (.list ["Q", "V", "I", "U"])).isSome ↔
      (∃ s, PolInput.list ["Q", "V", "I", "U"] = .str s
          ∧ ∃ f ∈ polarisation_frames, f.type = s)
      ∨ (∃ l, PolInput.list ["Q", "V", "I", "U"] = .list l
          ∧ ∃ f ∈ polarisation_frames, l.Perm f.names))
    ∧ ∀ f, polarisation_frame_from_names (.list ["Q", "V", "I", "U"]) = some f
        → f ∈ polarisation_frames :=
  polarisation_resolution_total_characterisation (.list ["Q", "V", "I", "U"])
